import Mathlib

/-!
# mongo-init.js: the MongoDB bootstrap script

A verification development of `mongo-init.js`.  The script is a straight-line
sequence of six shell statements:

    db.createUser({ user, pwd, roles })             (line 2)
    db = db.getSiblingDB('telegram_target_bot')     (line 12)
    db.targets.createIndex(..., { unique: true })   (line 15)
    db.users.createIndex(..., { unique: true })     (line 16)
    db.group_settings.createIndex(..., ...)         (line 17)
    print("... MongoDB initialized successfully!")  (line 19)

The script is embedded as a state-passing program over a shell world (the
global `db` variable, the printed output, a log of the statements executed)
and a database server.  The two server commands the script calls are taken as
a parameter (`ServerApi`), so that what the script itself decides is proved
for every server; `Server` is a concrete server, used where a property
depends on what the server does.
-/

namespace MongoInit

/-! ## Data model -/

/-- Errors a server command can raise. -/
inductive Err where
  | alreadyExists
  | indexConflict
  | duplicateKeyViolation
deriving DecidableEq, Repr

/-- Sort direction of one field of an index key: `1` is ascending, `-1` descending. -/
inductive Dir where
  | asc
  | desc
deriving DecidableEq, Repr

/-- A key specification: the ordered mapping from field name to direction
written `{ user_id: 1, date: 1 }` in the script. -/
abbrev KeySpec := List (String × Dir)

/-- A role grant `{ role: r, db: d }`. -/
structure Role where
  role : String
  db : String
deriving DecidableEq, Repr

/-- The argument document of `db.createUser`. -/
structure UserSpec where
  user : String
  pwd : String
  roles : List Role
deriving DecidableEq, Repr

/-- The options document of `createIndex`. -/
structure IndexOptions where
  unique : Bool
deriving DecidableEq, Repr

/-- One executed statement of a shell script, with the database it was
addressed to. -/
inductive Step where
  | createUser (db : String) (u : UserSpec)
  | getSiblingDB (name : String)
  | createIndex (db coll : String) (keys : KeySpec) (opts : IndexOptions)
  | print (msg : String)
deriving DecidableEq, Repr

/-- The server commands the script calls.  Each takes the server state and
returns the error raised, if any, and the state the server is left in. -/
structure ServerApi (σ : Type) where
  createUser : String → UserSpec → σ → Option Err × σ
  createIndex : String → String → KeySpec → IndexOptions → σ → Option Err × σ

/-- The world a script runs in: the server, the shell global `db`, the lines
printed so far, the statements executed so far, and the configuration injected
into the shell process (its environment variables). -/
structure World (σ : Type) where
  srv : σ
  db : String
  out : List String
  calls : List Step
  env : List (String × String)

/-- A shell computation: it ends normally with a value or with an uncaught
error, and leaves a world behind in both cases. -/
def Shell (σ α : Type) : Type := World σ → Except Err α × World σ

/-- Sequencing of statements: an uncaught error ends the script. -/
def Shell.bind {σ α β : Type} (m : Shell σ α) (f : α → Shell σ β) : Shell σ β :=
  fun w =>
    match m w with
    | (.ok a, w1) => f a w1
    | (.error e, w1) => (.error e, w1)

instance {σ : Type} : Monad (Shell σ) where
  pure a := fun w => (.ok a, w)
  bind := Shell.bind

/-- Turns the reply of a server command into the outcome of the statement: a
command that fails throws, and the script catches nothing. -/
def reply {σ : Type} (w : World σ) (r : Option Err × σ) : Except Err Unit × World σ :=
  match r.1 with
  | none => (.ok (), { w with srv := r.2 })
  | some e => (.error e, { w with srv := r.2 })

/-- The statement `db.createUser(u)`: addressed to the current database. -/
def createUser {σ : Type} (api : ServerApi σ) (u : UserSpec) : Shell σ Unit :=
  fun w =>
    reply { w with calls := w.calls ++ [Step.createUser w.db u] }
      (api.createUser w.db u w.srv)

/-- The statement `db = db.getSiblingDB(name)`: a local rebinding of `db`. -/
def getSiblingDB {σ : Type} (name : String) : Shell σ Unit :=
  fun w => (.ok (), { w with db := name, calls := w.calls ++ [Step.getSiblingDB name] })

/-- The statement `db.<coll>.createIndex(keys, opts)`. -/
def createIndex {σ : Type} (api : ServerApi σ) (coll : String) (keys : KeySpec)
    (opts : IndexOptions) : Shell σ Unit :=
  fun w =>
    reply { w with calls := w.calls ++ [Step.createIndex w.db coll keys opts] }
      (api.createIndex w.db coll keys opts w.srv)

/-- The statement `print(msg)`. -/
def print {σ : Type} (msg : String) : Shell σ Unit :=
  fun w => (.ok (), { w with out := w.out ++ [msg], calls := w.calls ++ [Step.print msg] })

/-! ## The script -/

/-- Lines 2-9 of the script. -/
def createAdmin {σ : Type} (api : ServerApi σ) : Shell σ Unit :=
  createUser api
    { user := "admin",
      pwd := "admin123",
      roles := [
        { role := "readWrite", db := "telegram_target_bot" },
        { role := "dbAdmin", db := "telegram_target_bot" }
      ] }

/-- Lines 15-17 of the script. -/
def createIndexes {σ : Type} (api : ServerApi σ) : Shell σ Unit := do
  createIndex api "targets" [("user_id", Dir.asc), ("date", Dir.asc)] { unique := true }
  createIndex api "users" [("user_id", Dir.asc)] { unique := true }
  createIndex api "group_settings" [("group_id", Dir.asc)] { unique := true }

/-- The whole of `mongo-init.js`. -/
def mongoInit {σ : Type} (api : ServerApi σ) : Shell σ Unit := do
  createAdmin api
  getSiblingDB "telegram_target_bot"
  createIndexes api
  print "✅ MongoDB initialized successfully!"

/-- Runs the script in a new shell session: `db` starts as `start`, nothing
has been printed or executed yet. -/
def run {σ : Type} (api : ServerApi σ) (start : String) (env : List (String × String))
    (srv : σ) : Except Err Unit × World σ :=
  mongoInit api { srv := srv, db := start, out := [], calls := [], env := env }

/-! ## Names for the constants of the script -/

/-- The database selected on line 12. -/
def targetDb : String := "telegram_target_bot"

/-- The argument of `db.createUser` on lines 2-9. -/
def adminSpec : UserSpec :=
  { user := "admin",
    pwd := "admin123",
    roles := [
      { role := "readWrite", db := "telegram_target_bot" },
      { role := "dbAdmin", db := "telegram_target_bot" }
    ] }

/-- The key specification of line 15. -/
def targetsKeys : KeySpec := [("user_id", Dir.asc), ("date", Dir.asc)]

/-- The key specification of line 16. -/
def usersKeys : KeySpec := [("user_id", Dir.asc)]

/-- The key specification of line 17. -/
def groupSettingsKeys : KeySpec := [("group_id", Dir.asc)]

/-- The line printed on line 19. -/
def successMessage : String := "✅ MongoDB initialized successfully!"

/-- The six statements of the script, in source order, when `db` starts as `start`. -/
def scriptSteps (start : String) : List Step :=
  [Step.createUser start adminSpec,
   Step.getSiblingDB targetDb,
   Step.createIndex targetDb "targets" targetsKeys { unique := true },
   Step.createIndex targetDb "users" usersKeys { unique := true },
   Step.createIndex targetDb "group_settings" groupSettingsKeys { unique := true },
   Step.print successMessage]

/-- The statements a run added to the log of the world it started in. -/
def newCalls {σ : Type} (w w1 : World σ) : List Step :=
  w1.calls.drop w.calls.length

/-- The lines a run added to the output of the world it started in. -/
def newOut {σ : Type} (w w1 : World σ) : List String :=
  w1.out.drop w.out.length

/-- An index declaration: the database and collection it is addressed to,
the key specification and the uniqueness flag. -/
structure IndexDecl where
  db : String
  coll : String
  keys : KeySpec
  unique : Bool
deriving DecidableEq, Repr

/-- The index declarations among a list of executed statements. -/
def declaredIndexes : List Step → List IndexDecl
  | [] => []
  | Step.createIndex db coll keys opts :: rest =>
      { db := db, coll := coll, keys := keys, unique := opts.unique } :: declaredIndexes rest
  | _ :: rest => declaredIndexes rest

/-- The create-user commands among a list of executed statements. -/
def createdPrincipals : List Step → List (String × UserSpec)
  | [] => []
  | Step.createUser db u :: rest => (db, u) :: createdPrincipals rest
  | _ :: rest => createdPrincipals rest

/-- The reply of the server to the `createUser` of line 2. -/
def replyUser {σ : Type} (api : ServerApi σ) (w : World σ) : Option Err × σ :=
  api.createUser w.db adminSpec w.srv

/-- The reply of the server to the `createIndex` of line 15, issued on the
state left by line 2. -/
def replyTargets {σ : Type} (api : ServerApi σ) (w : World σ) : Option Err × σ :=
  api.createIndex targetDb "targets" targetsKeys { unique := true } (replyUser api w).2

/-- The reply of the server to the `createIndex` of line 16, issued on the
state left by line 15. -/
def replyUsers {σ : Type} (api : ServerApi σ) (w : World σ) : Option Err × σ :=
  api.createIndex targetDb "users" usersKeys { unique := true } (replyTargets api w).2

/-- The reply of the server to the `createIndex` of line 17, issued on the
state left by line 16. -/
def replyGroups {σ : Type} (api : ServerApi σ) (w : World σ) : Option Err × σ :=
  api.createIndex targetDb "group_settings" groupSettingsKeys { unique := true }
    (replyUsers api w).2

/-! ## The database server

The server is not part of the repository: the script only calls it.  The
definitions of this section follow the specification of the repository. -/

/-- A field value of a document. -/
inductive Value where
  | null
  | num (n : Int)
  | str (s : String)
deriving DecidableEq, Repr

/-- A document: its fields in order. -/
abbrev Doc := List (String × Value)

/-- The value of field `f` of a document; a missing field reads as `null`. -/
def fieldOf (d : Doc) (f : String) : Value :=
  (d.lookup f).getD Value.null

/-- The index key of a document: its values on the fields of the key
specification, field by field in declared order. -/
def keyOf (keys : KeySpec) (d : Doc) : List Value :=
  keys.map (fun k => fieldOf d k.1)

/-- No two documents of the collection have equal values on the key fields. -/
def UniqueOn (keys : KeySpec) (docs : List Doc) : Prop :=
  (docs.map (keyOf keys)).Nodup

instance (keys : KeySpec) (docs : List Doc) : Decidable (UniqueOn keys docs) := by
  unfold UniqueOn; infer_instance

/-- An index of a collection. -/
structure Index where
  db : String
  coll : String
  name : String
  keys : KeySpec
  unique : Bool
deriving DecidableEq, Repr

/-- A principal: the database it was created in, its identifier, its secret
and its role grants. -/
structure Principal where
  db : String
  user : String
  pwd : String
  roles : List Role
deriving DecidableEq, Repr

/-- Modelled from the spec: the state of the database server, which is not in
the repository: the principals, the indexes and the documents of every
collection of every database (spec §3). -/
structure Server where
  users : List Principal
  indexes : List Index
  colls : String → String → List Doc

/-- The code of a direction in a generated index name. -/
def Dir.code : Dir → String
  | Dir.asc => "1"
  | Dir.desc => "-1"

/-- The name the server gives an index created without a name, such as
`user_id_1_date_1`. -/
def indexName (keys : KeySpec) : String :=
  String.intercalate "_" (keys.map (fun k => k.1 ++ "_" ++ k.2.code))

/-- The index a `createIndex` command describes. -/
def indexOf (db coll : String) (keys : KeySpec) (opts : IndexOptions) : Index :=
  { db := db, coll := coll, name := indexName keys, keys := keys, unique := opts.unique }

/-- Modelled from the spec: the create-user command of the server, which is not
in the repository (spec §4.1): it fails with `AlreadyExists` if a principal
with that name exists in the database addressed, and creates the principal
otherwise. -/
def Server.createUser (db : String) (u : UserSpec) (s : Server) : Option Err × Server :=
  if s.users.any (fun p => p.db = db ∧ p.user = u.user) then
    (some Err.alreadyExists, s)
  else
    (none, { s with users := s.users ++ [{ db := db, user := u.user, pwd := u.pwd, roles := u.roles }] })

/-- Modelled from the spec: the index command of the server, which is not in
the repository (spec §4.1): creating an index that exists with identical
specification is a no-op; one that exists under the same name with another
specification fails with `IndexConflict`; documents violating the proposed
uniqueness constraint fail with `DuplicateKeyViolation` and the index is not
created. -/
def Server.createIndex (db coll : String) (keys : KeySpec) (opts : IndexOptions)
    (s : Server) : Option Err × Server :=
  if indexOf db coll keys opts ∈ s.indexes then
    (none, s)
  else if s.indexes.any (fun j => j.db = db ∧ j.coll = coll ∧ j.name = indexName keys) then
    (some Err.indexConflict, s)
  else if opts.unique = true ∧ ¬ UniqueOn keys (s.colls db coll) then
    (some Err.duplicateKeyViolation, s)
  else
    (none, { s with indexes := s.indexes ++ [indexOf db coll keys opts] })

/-- The server as seen by the script. -/
def server : ServerApi Server :=
  { createUser := Server.createUser, createIndex := Server.createIndex }

/-- A server with no principal, no index and no document. -/
def emptyServer : Server :=
  { users := [], indexes := [], colls := fun _ _ => [] }

/-- Replaces the documents of one collection. -/
def Server.setColl (s : Server) (db coll : String) (docs : List Doc) : Server :=
  { s with colls := fun d c => if d = db ∧ c = coll then docs else s.colls d c }

/-- The unique indexes of a collection. -/
def Server.uniqueIndexes (s : Server) (db coll : String) : List Index :=
  s.indexes.filter (fun ix => ix.db = db ∧ ix.coll = coll ∧ ix.unique = true)

/-- Modelled from the spec: the insert command of the server, which is not in
the repository (spec §3): the document is rejected if a unique index of the
collection already holds its key, and appended otherwise. -/
def Server.insert (db coll : String) (d : Doc) (s : Server) : Option Err × Server :=
  if (s.uniqueIndexes db coll).any
      (fun ix => keyOf ix.keys d ∈ (s.colls db coll).map (keyOf ix.keys)) then
    (some Err.duplicateKeyViolation, s)
  else
    (none, s.setColl db coll (s.colls db coll ++ [d]))

/-- Modelled from the spec: the update command of the server, which is not in
the repository (spec §3): document number `i` of the collection becomes `d`;
the update is rejected if a unique index of the collection holds the key of
`d` for another document; it matches nothing if there is no document `i`. -/
def Server.update (db coll : String) (i : Nat) (d : Doc) (s : Server) : Option Err × Server :=
  if i < (s.colls db coll).length then
    if (s.uniqueIndexes db coll).any
        (fun ix => keyOf ix.keys d ∈ ((s.colls db coll).eraseIdx i).map (keyOf ix.keys)) then
      (some Err.duplicateKeyViolation, s)
    else
      (none, s.setColl db coll ((s.colls db coll).set i d))
  else
    (none, s)

/-- A write to a collection. -/
inductive Write where
  | insert (db coll : String) (d : Doc)
  | update (db coll : String) (i : Nat) (d : Doc)
deriving DecidableEq, Repr

/-- The server executing one write. -/
def Server.write (op : Write) (s : Server) : Option Err × Server :=
  match op with
  | Write.insert db coll d => s.insert db coll d
  | Write.update db coll i d => s.update db coll i d

/-- The server executing a sequence of writes, whether accepted or rejected. -/
def Server.writes (ops : List Write) (s : Server) : Server :=
  ops.foldl (fun t op => (t.write op).2) s

/-- The documents a collection would hold after a write if no index were
checked. -/
def unchecked (op : Write) (db coll : String) (docs : List Doc) : List Doc :=
  match op with
  | Write.insert db1 coll1 d => if db1 = db ∧ coll1 = coll then docs ++ [d] else docs
  | Write.update db1 coll1 i d => if db1 = db ∧ coll1 = coll then docs.set i d else docs

/-- Every unique index of the server holds on its collection. -/
def Consistent (s : Server) : Prop :=
  ∀ ix ∈ s.indexes, ix.unique = true → UniqueOn ix.keys (s.colls ix.db ix.coll)

/-! ## Concrete inputs -/

/-- A document of the targets collection. -/
def sampleTarget : Doc :=
  [("user_id", Value.num 1), ("date", Value.str "2024-01-01")]

/-- A second document of the targets collection: same user, another day. -/
def sampleTargetNextDay : Doc :=
  [("user_id", Value.num 1), ("date", Value.str "2024-01-02")]

/-- A server whose targets collection holds the same document twice, and
nothing else. -/
def duplicateServer : Server :=
  emptyServer.setColl "telegram_target_bot" "targets" [sampleTarget, sampleTarget]

/-- The server left by a run of the script on `duplicateServer`. -/
def duplicateServerRerun : Server :=
  (run server "test" [] duplicateServer).2.srv

/-- The server left by a run of the script on the empty server. -/
def bootstrapped : Server :=
  (run server "test" [] emptyServer).2.srv

/-- The secrets of the create-user commands among a list of executed
statements. -/
def createdSecrets (steps : List Step) : List String :=
  (createdPrincipals steps).map (fun p => p.2.pwd)

/-! ## The run of the script, case by case -/

theorem drop_length_append {α : Type} (l r : List α) : (l ++ r).drop l.length = r := by
  simp

/-- Line 2 raises: the script ends there. -/
theorem run_err_user {σ : Type} (api : ServerApi σ) (w : World σ) (e : Err)
    (h0 : (replyUser api w).1 = some e) :
    mongoInit api w = (.error e,
      { srv := (replyUser api w).2, db := w.db, out := w.out,
        calls := w.calls ++ (scriptSteps w.db).take 1, env := w.env }) := by
  simp only [replyUser, adminSpec] at h0
  simp [mongoInit, createAdmin, createUser, bind, Shell.bind, reply, h0, replyUser, adminSpec,
    scriptSteps]

/-- Line 15 raises: the script ends there. -/
theorem run_err_targets {σ : Type} (api : ServerApi σ) (w : World σ) (e : Err)
    (h0 : (replyUser api w).1 = none) (h1 : (replyTargets api w).1 = some e) :
    mongoInit api w = (.error e,
      { srv := (replyTargets api w).2, db := targetDb, out := w.out,
        calls := w.calls ++ (scriptSteps w.db).take 3, env := w.env }) := by
  simp only [replyTargets, replyUser, targetDb, adminSpec, targetsKeys] at h0 h1
  simp [mongoInit, createAdmin, createIndexes, createUser, createIndex, getSiblingDB, bind,
    Shell.bind, reply, h0, h1, replyTargets, replyUser, targetDb, adminSpec, targetsKeys,
    scriptSteps]

/-- Line 16 raises: the script ends there. -/
theorem run_err_users {σ : Type} (api : ServerApi σ) (w : World σ) (e : Err)
    (h0 : (replyUser api w).1 = none) (h1 : (replyTargets api w).1 = none)
    (h2 : (replyUsers api w).1 = some e) :
    mongoInit api w = (.error e,
      { srv := (replyUsers api w).2, db := targetDb, out := w.out,
        calls := w.calls ++ (scriptSteps w.db).take 4, env := w.env }) := by
  simp only [replyUsers, replyTargets, replyUser, targetDb, adminSpec, targetsKeys,
    usersKeys] at h0 h1 h2
  simp [mongoInit, createAdmin, createIndexes, createUser, createIndex, getSiblingDB, bind,
    Shell.bind, reply, h0, h1, h2, replyUsers, replyTargets, replyUser, targetDb, adminSpec,
    targetsKeys, usersKeys, scriptSteps]

/-- Line 17 raises: the script ends there. -/
theorem run_err_groups {σ : Type} (api : ServerApi σ) (w : World σ) (e : Err)
    (h0 : (replyUser api w).1 = none) (h1 : (replyTargets api w).1 = none)
    (h2 : (replyUsers api w).1 = none) (h3 : (replyGroups api w).1 = some e) :
    mongoInit api w = (.error e,
      { srv := (replyGroups api w).2, db := targetDb, out := w.out,
        calls := w.calls ++ (scriptSteps w.db).take 5, env := w.env }) := by
  simp only [replyGroups, replyUsers, replyTargets, replyUser, targetDb, adminSpec, targetsKeys,
    usersKeys, groupSettingsKeys] at h0 h1 h2 h3
  simp [mongoInit, createAdmin, createIndexes, createUser, createIndex, getSiblingDB, bind,
    Shell.bind, reply, h0, h1, h2, h3, replyGroups, replyUsers, replyTargets, replyUser,
    targetDb, adminSpec, targetsKeys, usersKeys, groupSettingsKeys, scriptSteps]

/-- No statement raises: the script runs to its last line. -/
theorem run_ok {σ : Type} (api : ServerApi σ) (w : World σ)
    (h0 : (replyUser api w).1 = none) (h1 : (replyTargets api w).1 = none)
    (h2 : (replyUsers api w).1 = none) (h3 : (replyGroups api w).1 = none) :
    mongoInit api w = (.ok (),
      { srv := (replyGroups api w).2, db := targetDb, out := w.out ++ [successMessage],
        calls := w.calls ++ scriptSteps w.db, env := w.env }) := by
  simp only [replyGroups, replyUsers, replyTargets, replyUser, targetDb, adminSpec, targetsKeys,
    usersKeys, groupSettingsKeys] at h0 h1 h2 h3
  simp [mongoInit, createAdmin, createIndexes, createUser, createIndex, getSiblingDB, print,
    bind, Shell.bind, reply, h0, h1, h2, h3, replyGroups, replyUsers, replyTargets, replyUser,
    targetDb, adminSpec, targetsKeys, usersKeys, groupSettingsKeys, scriptSteps, successMessage]

/-- The run succeeds exactly when none of the four server commands raises. -/
theorem run_ok_iff {σ : Type} (api : ServerApi σ) (w : World σ) :
    (mongoInit api w).1 = .ok () ↔
      (replyUser api w).1 = none ∧ (replyTargets api w).1 = none ∧
      (replyUsers api w).1 = none ∧ (replyGroups api w).1 = none := by
  constructor
  · intro h
    cases h0 : (replyUser api w).1 with
    | some e => rw [run_err_user api w e h0] at h; cases h
    | none =>
      cases h1 : (replyTargets api w).1 with
      | some e => rw [run_err_targets api w e h0 h1] at h; cases h
      | none =>
        cases h2 : (replyUsers api w).1 with
        | some e => rw [run_err_users api w e h0 h1 h2] at h; cases h
        | none =>
          cases h3 : (replyGroups api w).1 with
          | some e => rw [run_err_groups api w e h0 h1 h2 h3] at h; cases h
          | none => exact ⟨rfl, rfl, rfl, rfl⟩
  · rintro ⟨h0, h1, h2, h3⟩
    rw [run_ok api w h0 h1 h2 h3]

/-- The statements a run executes are the first few of the script, in source
order, and it prints the success message at most once. -/
theorem run_shape {σ : Type} (api : ServerApi σ) (w : World σ) :
    ∃ k, (mongoInit api w).2.calls = w.calls ++ (scriptSteps w.db).take k ∧
      (mongoInit api w).2.env = w.env ∧ 1 ≤ k ∧
      (((mongoInit api w).1 = .ok () ∧ k = 6 ∧ (mongoInit api w).2.out = w.out ++ [successMessage]) ∨
       ((mongoInit api w).1 ≠ .ok () ∧ k < 6 ∧ (mongoInit api w).2.out = w.out)) := by
  cases h0 : (replyUser api w).1 with
  | some e => exact ⟨1, by simp [run_err_user api w e h0]⟩
  | none =>
    cases h1 : (replyTargets api w).1 with
    | some e => exact ⟨3, by simp [run_err_targets api w e h0 h1]⟩
    | none =>
      cases h2 : (replyUsers api w).1 with
      | some e => exact ⟨4, by simp [run_err_users api w e h0 h1 h2]⟩
      | none =>
        cases h3 : (replyGroups api w).1 with
        | some e => exact ⟨5, by simp [run_err_groups api w e h0 h1 h2 h3]⟩
        | none => exact ⟨6, by simp [run_ok api w h0 h1 h2 h3, scriptSteps]⟩

/-- Every run issues the create-user command of line 2 once, and no other. -/
theorem createdPrincipals_run {σ : Type} (api : ServerApi σ) (w : World σ) :
    createdPrincipals (newCalls w (mongoInit api w).2) = [(w.db, adminSpec)] := by
  cases h0 : (replyUser api w).1 with
  | some e => rw [run_err_user api w e h0]; simp only [newCalls, drop_length_append]; rfl
  | none =>
    cases h1 : (replyTargets api w).1 with
    | some e => rw [run_err_targets api w e h0 h1]; simp only [newCalls, drop_length_append]; rfl
    | none =>
      cases h2 : (replyUsers api w).1 with
      | some e =>
        rw [run_err_users api w e h0 h1 h2]; simp only [newCalls, drop_length_append]; rfl
      | none =>
        cases h3 : (replyGroups api w).1 with
        | some e =>
          rw [run_err_groups api w e h0 h1 h2 h3]; simp only [newCalls, drop_length_append]; rfl
        | none => rw [run_ok api w h0 h1 h2 h3]; simp only [newCalls, drop_length_append]; rfl

/-! ## What the script declares -/

/-- C1: on every run that succeeds, the indexes the script declares are
exactly three, all unique and all in database "telegram_target_bot", on the
three distinct collections targets (key user_id ascending, then date
ascending), users (key user_id ascending) and group_settings (key group_id
ascending); none is declared in another database, in particular none in the
database the script starts in when that is another one, and none on another
collection. -/
theorem declared_indexes_exact {σ : Type} (api : ServerApi σ) (w : World σ)
    (h : (mongoInit api w).1 = .ok ()) :
    declaredIndexes (newCalls w (mongoInit api w).2) =
      [{ db := "telegram_target_bot", coll := "targets",
         keys := [("user_id", Dir.asc), ("date", Dir.asc)], unique := true },
       { db := "telegram_target_bot", coll := "users",
         keys := [("user_id", Dir.asc)], unique := true },
       { db := "telegram_target_bot", coll := "group_settings",
         keys := [("group_id", Dir.asc)], unique := true }] ∧
    ((declaredIndexes (newCalls w (mongoInit api w).2)).map IndexDecl.coll).Nodup ∧
    (∀ ix ∈ declaredIndexes (newCalls w (mongoInit api w).2),
      ix.db = "telegram_target_bot" ∧ ix.unique = true ∧
      ix.coll ∈ ["targets", "users", "group_settings"]) ∧
    (∀ d, d ≠ "telegram_target_bot" →
      ∀ ix ∈ declaredIndexes (newCalls w (mongoInit api w).2), ix.db ≠ d) ∧
    (w.db ≠ "telegram_target_bot" →
      ∀ ix ∈ declaredIndexes (newCalls w (mongoInit api w).2), ix.db ≠ w.db) := by
  obtain ⟨h0, h1, h2, h3⟩ := (run_ok_iff api w).1 h
  have hd : declaredIndexes (newCalls w (mongoInit api w).2) =
      [{ db := "telegram_target_bot", coll := "targets",
         keys := [("user_id", Dir.asc), ("date", Dir.asc)], unique := true },
       { db := "telegram_target_bot", coll := "users",
         keys := [("user_id", Dir.asc)], unique := true },
       { db := "telegram_target_bot", coll := "group_settings",
         keys := [("group_id", Dir.asc)], unique := true }] := by
    rw [run_ok api w h0 h1 h2 h3]
    simp only [newCalls, drop_length_append]
    rfl
  rw [hd]
  refine ⟨rfl, by decide, by decide, ?_, ?_⟩
  · intro d hd1 ix hix
    simp only [List.mem_cons, List.mem_singleton, List.not_mem_nil, or_false] at hix
    rcases hix with rfl | rfl | rfl <;> exact fun h => hd1 h.symm
  · intro hd1 ix hix
    simp only [List.mem_cons, List.mem_singleton, List.not_mem_nil, or_false] at hix
    rcases hix with rfl | rfl | rfl <;> exact fun h => hd1 h.symm

/-- The run of the script on the empty server succeeds and declares the three
indexes. -/
theorem declared_indexes_exact_witness :
    (mongoInit server { srv := emptyServer, db := "test", out := [], calls := [], env := [] }).1
        = .ok () ∧
    declaredIndexes (newCalls
        { srv := emptyServer, db := "test", out := [], calls := [], env := [] }
        (mongoInit server
          { srv := emptyServer, db := "test", out := [], calls := [], env := [] }).2) =
      [{ db := "telegram_target_bot", coll := "targets",
         keys := [("user_id", Dir.asc), ("date", Dir.asc)], unique := true },
       { db := "telegram_target_bot", coll := "users",
         keys := [("user_id", Dir.asc)], unique := true },
       { db := "telegram_target_bot", coll := "group_settings",
         keys := [("group_id", Dir.asc)], unique := true }] :=
  ⟨rfl, (declared_indexes_exact server
    { srv := emptyServer, db := "test", out := [], calls := [], env := [] } rfl).1⟩

/-- C2: whenever principal creation succeeds, the script creates exactly one
principal, named "admin", and the set of its role grants is exactly readWrite
on "telegram_target_bot" and dbAdmin on "telegram_target_bot": every grant is
scoped to that database and there is no other grant. -/
theorem principal_exact {σ : Type} (api : ServerApi σ) (w : World σ)
    (h : (replyUser api w).1 = none) :
    ∃ u : UserSpec,
      createdPrincipals (newCalls w (mongoInit api w).2) = [(w.db, u)] ∧
      (api.createUser w.db u w.srv).1 = none ∧
      u.user = "admin" ∧
      (∀ r : Role, r ∈ u.roles ↔
        (r = { role := "readWrite", db := "telegram_target_bot" } ∨
         r = { role := "dbAdmin", db := "telegram_target_bot" })) ∧
      (∀ r ∈ u.roles, r.db = "telegram_target_bot") := by
  refine ⟨adminSpec, createdPrincipals_run api w, h, rfl, ?_, ?_⟩
  · intro r; simp [adminSpec]
  · intro r hr
    simp only [adminSpec, List.mem_cons, List.mem_singleton, List.not_mem_nil, or_false] at hr
    rcases hr with rfl | rfl <;> rfl

/-- On the empty server principal creation succeeds, and the principal created
is "admin" with its two grants. -/
theorem principal_exact_witness :
    (replyUser server
      { srv := emptyServer, db := "test", out := [], calls := [], env := [] }).1 = none ∧
    ∃ u : UserSpec,
      createdPrincipals (newCalls
        { srv := emptyServer, db := "test", out := [], calls := [], env := [] }
        (mongoInit server
          { srv := emptyServer, db := "test", out := [], calls := [], env := [] }).2)
        = [("test", u)] ∧
      (server.createUser "test" u emptyServer).1 = none ∧
      u.user = "admin" ∧
      (∀ r : Role, r ∈ u.roles ↔
        (r = { role := "readWrite", db := "telegram_target_bot" } ∨
         r = { role := "dbAdmin", db := "telegram_target_bot" })) ∧
      (∀ r ∈ u.roles, r.db = "telegram_target_bot") :=
  ⟨rfl, principal_exact server
    { srv := emptyServer, db := "test", out := [], calls := [], env := [] } rfl⟩

/-! ## Order of execution and errors -/

/-- C6: the script executes its statements in the order principal creation,
database switch, index creation on targets, on users, on group_settings (and
then the print); whatever the initial state, when one of the four server
commands raises an error the run ends with that error, the statements executed
are those up to and including the failing one, the server is left as the
failing command left it and nothing is printed; when none raises, all six
statements are executed in order. -/
theorem fixed_order_fail_fast {σ : Type} (api : ServerApi σ) (w : World σ) :
    (∀ e, (replyUser api w).1 = some e →
      mongoInit api w = (.error e,
        { srv := (replyUser api w).2, db := w.db, out := w.out,
          calls := w.calls ++ [Step.createUser w.db adminSpec], env := w.env })) ∧
    (∀ e, (replyUser api w).1 = none → (replyTargets api w).1 = some e →
      mongoInit api w = (.error e,
        { srv := (replyTargets api w).2, db := targetDb, out := w.out,
          calls := w.calls ++ [Step.createUser w.db adminSpec, Step.getSiblingDB targetDb,
            Step.createIndex targetDb "targets" targetsKeys { unique := true }],
          env := w.env })) ∧
    (∀ e, (replyUser api w).1 = none → (replyTargets api w).1 = none →
      (replyUsers api w).1 = some e →
      mongoInit api w = (.error e,
        { srv := (replyUsers api w).2, db := targetDb, out := w.out,
          calls := w.calls ++ [Step.createUser w.db adminSpec, Step.getSiblingDB targetDb,
            Step.createIndex targetDb "targets" targetsKeys { unique := true },
            Step.createIndex targetDb "users" usersKeys { unique := true }],
          env := w.env })) ∧
    (∀ e, (replyUser api w).1 = none → (replyTargets api w).1 = none →
      (replyUsers api w).1 = none → (replyGroups api w).1 = some e →
      mongoInit api w = (.error e,
        { srv := (replyGroups api w).2, db := targetDb, out := w.out,
          calls := w.calls ++ [Step.createUser w.db adminSpec, Step.getSiblingDB targetDb,
            Step.createIndex targetDb "targets" targetsKeys { unique := true },
            Step.createIndex targetDb "users" usersKeys { unique := true },
            Step.createIndex targetDb "group_settings" groupSettingsKeys { unique := true }],
          env := w.env })) ∧
    ((replyUser api w).1 = none → (replyTargets api w).1 = none →
      (replyUsers api w).1 = none → (replyGroups api w).1 = none →
      mongoInit api w = (.ok (),
        { srv := (replyGroups api w).2, db := targetDb, out := w.out ++ [successMessage],
          calls := w.calls ++ [Step.createUser w.db adminSpec, Step.getSiblingDB targetDb,
            Step.createIndex targetDb "targets" targetsKeys { unique := true },
            Step.createIndex targetDb "users" usersKeys { unique := true },
            Step.createIndex targetDb "group_settings" groupSettingsKeys { unique := true },
            Step.print successMessage],
          env := w.env })) :=
  ⟨fun e h0 => run_err_user api w e h0,
   fun e h0 h1 => run_err_targets api w e h0 h1,
   fun e h0 h1 h2 => run_err_users api w e h0 h1 h2,
   fun e h0 h1 h2 h3 => run_err_groups api w e h0 h1 h2 h3,
   fun h0 h1 h2 h3 => run_ok api w h0 h1 h2 h3⟩

/-- On a server whose targets collection holds a duplicate, the run ends at
line 15 with the error of that line: lines 16, 17 and 19 are not executed. -/
theorem fixed_order_fail_fast_witness :
    mongoInit server { srv := duplicateServer, db := "test", out := [], calls := [], env := [] }
      = (.error Err.duplicateKeyViolation,
        { srv := (replyTargets server
            { srv := duplicateServer, db := "test", out := [], calls := [], env := [] }).2,
          db := targetDb, out := [],
          calls := [] ++ [Step.createUser "test" adminSpec, Step.getSiblingDB targetDb,
            Step.createIndex targetDb "targets" targetsKeys { unique := true }],
          env := [] }) :=
  (fixed_order_fail_fast server
    { srv := duplicateServer, db := "test", out := [], calls := [], env := [] }).2.1
    Err.duplicateKeyViolation rfl rfl

/-- C9: whatever the initial state, the run prints the success message at most
once; when it does, the print is the last statement executed and the
user-creation command and the three index-creation commands all completed
without error; when any of those four commands fails the run prints
nothing. -/
theorem success_message_only_on_completion {σ : Type} (api : ServerApi σ) (w : World σ) :
    (newOut w (mongoInit api w).2 = [] ∨ newOut w (mongoInit api w).2 = [successMessage]) ∧
    (successMessage ∈ newOut w (mongoInit api w).2 →
      (mongoInit api w).1 = .ok () ∧
      (newCalls w (mongoInit api w).2).getLast? = some (Step.print successMessage) ∧
      (replyUser api w).1 = none ∧ (replyTargets api w).1 = none ∧
      (replyUsers api w).1 = none ∧ (replyGroups api w).1 = none) ∧
    (((replyUser api w).1 ≠ none ∨ (replyTargets api w).1 ≠ none ∨
      (replyUsers api w).1 ≠ none ∨ (replyGroups api w).1 ≠ none) →
      (mongoInit api w).1 ≠ .ok () ∧ newOut w (mongoInit api w).2 = []) ∧
    successMessage = "✅ MongoDB initialized successfully!" := by
  refine ⟨?_, ?_, ?_, rfl⟩ <;>
  cases h0 : (replyUser api w).1 with
  | some e => simp [run_err_user api w e h0, newOut]
  | none =>
    cases h1 : (replyTargets api w).1 with
    | some e => simp [run_err_targets api w e h0 h1, newOut]
    | none =>
      cases h2 : (replyUsers api w).1 with
      | some e => simp [run_err_users api w e h0 h1 h2, newOut]
      | none =>
        cases h3 : (replyGroups api w).1 with
        | some e => simp [run_err_groups api w e h0 h1 h2 h3, newOut]
        | none =>
          simp only [run_ok api w h0 h1 h2 h3, newOut, newCalls, drop_length_append]
          simp [scriptSteps, successMessage]

/-- C10 as amended: the secret of the bootstrap principal is hard-coded: the
secret passed to the create-user command is the literal "admin123" of the
script whatever configuration is injected, so that runs under different
injected secrets create the principal with the same secret. -/
theorem secret_is_literal {σ : Type} (api : ServerApi σ) (w : World σ) :
    createdSecrets (newCalls w (mongoInit api w).2) = ["admin123"] := by
  simp only [createdSecrets, createdPrincipals_run]
  rfl

/-- C10 fails on the script: two runs whose injected configurations carry
different secrets pass the same secret to the create-user command. -/
theorem secret_not_injected_counterexample :
    ([("MONGO_ADMIN_PASSWORD", "s3cret-one")] : List (String × String)).lookup
        "MONGO_ADMIN_PASSWORD" ≠
      ([("MONGO_ADMIN_PASSWORD", "s3cret-two")] : List (String × String)).lookup
        "MONGO_ADMIN_PASSWORD" ∧
    createdSecrets (run server "test" [("MONGO_ADMIN_PASSWORD", "s3cret-one")] emptyServer).2.calls
      = createdSecrets
          (run server "test" [("MONGO_ADMIN_PASSWORD", "s3cret-two")] emptyServer).2.calls ∧
    (run server "test" [("MONGO_ADMIN_PASSWORD", "s3cret-one")] emptyServer).2.srv.users.map
        Principal.pwd = ["admin123"] ∧
    (run server "test" [("MONGO_ADMIN_PASSWORD", "s3cret-two")] emptyServer).2.srv.users.map
        Principal.pwd = ["admin123"] := by
  refine ⟨by decide, rfl, rfl, rfl⟩


/-! ## The server: what the commands change -/

theorem Server.createUser_indexes (db : String) (u : UserSpec) (s : Server) :
    (s.createUser db u).2.indexes = s.indexes := by
  unfold Server.createUser; split_ifs <;> rfl

theorem Server.createUser_colls (db : String) (u : UserSpec) (s : Server) :
    (s.createUser db u).2.colls = s.colls := by
  unfold Server.createUser; split_ifs <;> rfl

theorem Server.createIndex_colls (db coll : String) (keys : KeySpec) (opts : IndexOptions)
    (s : Server) : (s.createIndex db coll keys opts).2.colls = s.colls := by
  unfold Server.createIndex; split_ifs <;> rfl

theorem Server.createIndex_users (db coll : String) (keys : KeySpec) (opts : IndexOptions)
    (s : Server) : (s.createIndex db coll keys opts).2.users = s.users := by
  unfold Server.createIndex; split_ifs <;> rfl

/-- A failed index command leaves the server as it was. -/
theorem Server.createIndex_err (db coll : String) (keys : KeySpec) (opts : IndexOptions)
    (s : Server) (e : Err) (h : (s.createIndex db coll keys opts).1 = some e) :
    (s.createIndex db coll keys opts).2 = s := by
  unfold Server.createIndex at h ⊢; split_ifs at h ⊢ <;> rfl

/-- After an index command that succeeded the index exists. -/
theorem Server.createIndex_mem (db coll : String) (keys : KeySpec) (opts : IndexOptions)
    (s : Server) (h : (s.createIndex db coll keys opts).1 = none) :
    indexOf db coll keys opts ∈ (s.createIndex db coll keys opts).2.indexes := by
  unfold Server.createIndex at h ⊢; split_ifs at h ⊢ with h1 h2 h3
  · exact h1
  · simp

/-- The indexes after an index command: those before, and the new one if the
command created it, which a unique one does only on a collection without
duplicates. -/
theorem Server.createIndex_indexes (db coll : String) (keys : KeySpec) (opts : IndexOptions)
    (s : Server) (ix : Index) (h : ix ∈ (s.createIndex db coll keys opts).2.indexes) :
    ix ∈ s.indexes ∨
      (ix = indexOf db coll keys opts ∧ (opts.unique = true → UniqueOn keys (s.colls db coll))) := by
  unfold Server.createIndex at h; split_ifs at h with h1 h2 h3
  · exact Or.inl h
  · exact Or.inl h
  · exact Or.inl h
  · simp only [List.mem_append, List.mem_singleton] at h
    rcases h with h | h
    · exact Or.inl h
    · refine Or.inr ⟨h, fun hu => ?_⟩
      by_contra hn
      exact h3 ⟨hu, hn⟩

theorem Server.createIndex_mono (db coll : String) (keys : KeySpec) (opts : IndexOptions)
    (s : Server) (ix : Index) (h : ix ∈ s.indexes) :
    ix ∈ (s.createIndex db coll keys opts).2.indexes := by
  unfold Server.createIndex; split_ifs <;> simp [h]

theorem Server.createUser_consistent (db : String) (u : UserSpec) (s : Server)
    (h : Consistent s) : Consistent (s.createUser db u).2 := by
  intro ix hix hu
  rw [Server.createUser_indexes] at hix
  rw [Server.createUser_colls]
  exact h ix hix hu

theorem Server.createIndex_consistent (db coll : String) (keys : KeySpec) (opts : IndexOptions)
    (s : Server) (h : Consistent s) : Consistent (s.createIndex db coll keys opts).2 := by
  intro ix hix hu
  rw [Server.createIndex_colls]
  rcases Server.createIndex_indexes db coll keys opts s ix hix with h1 | ⟨rfl, h2⟩
  · exact h ix h1 hu
  · exact h2 hu

/-! ## Writes keep unique indexes valid -/

/-- Replacing an element by one whose image is new keeps the images distinct. -/
theorem nodup_map_set {α β : Type} (f : α → β) (d : α) :
    ∀ (l : List α) (i : Nat), (l.map f).Nodup → f d ∉ (l.eraseIdx i).map f →
      ((l.set i d).map f).Nodup
  | [], _, _, _ => by simp
  | a :: t, 0, hn, hd => by
    simp only [List.set_cons_zero, List.map_cons, List.nodup_cons, List.eraseIdx_cons_zero] at *
    exact ⟨hd, hn.2⟩
  | a :: t, i + 1, hn, hd => by
    simp only [List.set_cons_succ, List.map_cons, List.nodup_cons, List.eraseIdx_cons_succ,
      List.mem_cons, not_or] at *
    refine ⟨?_, nodup_map_set f d t i hn.2 hd.2⟩
    intro hmem
    obtain ⟨x, hx, hfx⟩ := List.mem_map.1 hmem
    rcases List.mem_or_eq_of_mem_set hx with hx1 | hx1
    · exact hn.1 (List.mem_map.2 ⟨x, hx1, hfx⟩)
    · subst hx1; exact hd.1 hfx

/-- A replacement that breaks distinctness of the images hits a document that
exists and brings the image of another one. -/
theorem mem_of_not_nodup_set {α β : Type} (f : α → β) (d : α) (l : List α) (i : Nat)
    (hn : (l.map f).Nodup) (h : ¬ ((l.set i d).map f).Nodup) :
    i < l.length ∧ f d ∈ (l.eraseIdx i).map f := by
  by_cases hi : i < l.length
  · refine ⟨hi, ?_⟩
    by_contra hd
    exact h (nodup_map_set f d l i hn hd)
  · rw [List.set_eq_of_length_le (Nat.le_of_not_lt hi)] at h
    exact absurd hn h

/-- An append that breaks distinctness of the images brings an image that is
already there. -/
theorem mem_of_not_nodup_append {α β : Type} (f : α → β) (d : α) (l : List α)
    (hn : (l.map f).Nodup) (h : ¬ ((l ++ [d]).map f).Nodup) : f d ∈ l.map f := by
  by_contra hd
  apply h
  rw [List.map_append, List.nodup_append]
  refine ⟨hn, by simp, ?_⟩
  intro x hx hx1
  simp only [List.map_cons, List.map_nil, List.mem_singleton] at hx1
  subst hx1
  exact hd hx

theorem Server.insert_indexes (db coll : String) (d : Doc) (s : Server) :
    (s.insert db coll d).2.indexes = s.indexes := by
  unfold Server.insert; split_ifs <;> rfl

theorem Server.update_indexes (db coll : String) (i : Nat) (d : Doc) (s : Server) :
    (s.update db coll i d).2.indexes = s.indexes := by
  unfold Server.update; split_ifs <;> rfl

theorem Server.write_indexes (op : Write) (s : Server) :
    (s.write op).2.indexes = s.indexes := by
  cases op with
  | insert db coll d => exact Server.insert_indexes db coll d s
  | update db coll i d => exact Server.update_indexes db coll i d s

theorem Server.mem_uniqueIndexes (s : Server) (ix : Index) (h : ix ∈ s.indexes)
    (hu : ix.unique = true) : ix ∈ s.uniqueIndexes ix.db ix.coll := by
  simp [Server.uniqueIndexes, h, hu]

theorem Server.insert_consistent (db coll : String) (d : Doc) (s : Server)
    (h : Consistent s) : Consistent (s.insert db coll d).2 := by
  unfold Server.insert
  split_ifs with hany
  · exact h
  · intro ix hix hu
    have hix1 : ix ∈ s.indexes := hix
    by_cases hdc : ix.db = db ∧ ix.coll = coll
    · obtain ⟨rfl, rfl⟩ := hdc
      simp only [Server.setColl, and_self, if_true]
      have hmem := Server.mem_uniqueIndexes s ix hix1 hu
      have hd : keyOf ix.keys d ∉ (s.colls ix.db ix.coll).map (keyOf ix.keys) := by
        intro hd
        apply hany
        rw [List.any_eq_true]
        exact ⟨ix, hmem, by simpa using hd⟩
      unfold UniqueOn
      by_contra hnd
      exact hd (mem_of_not_nodup_append (keyOf ix.keys) d _ (h ix hix1 hu) hnd)
    · simp only [Server.setColl, hdc, if_false]
      exact h ix hix1 hu

theorem Server.update_consistent (db coll : String) (i : Nat) (d : Doc) (s : Server)
    (h : Consistent s) : Consistent (s.update db coll i d).2 := by
  unfold Server.update
  split_ifs with hi hany
  · exact h
  · intro ix hix hu
    have hix1 : ix ∈ s.indexes := hix
    by_cases hdc : ix.db = db ∧ ix.coll = coll
    · obtain ⟨rfl, rfl⟩ := hdc
      simp only [Server.setColl, and_self, if_true]
      have hmem := Server.mem_uniqueIndexes s ix hix1 hu
      have hd : keyOf ix.keys d ∉ ((s.colls ix.db ix.coll).eraseIdx i).map (keyOf ix.keys) := by
        intro hd
        apply hany
        rw [List.any_eq_true]
        exact ⟨ix, hmem, by simpa using hd⟩
      exact nodup_map_set (keyOf ix.keys) d _ i (h ix hix1 hu) hd
    · simp only [Server.setColl, hdc, if_false]
      exact h ix hix1 hu
  · exact h

theorem Server.write_consistent (op : Write) (s : Server) (h : Consistent s) :
    Consistent (s.write op).2 := by
  cases op with
  | insert db coll d => exact Server.insert_consistent db coll d s h
  | update db coll i d => exact Server.update_consistent db coll i d s h

theorem Server.writes_indexes (ops : List Write) :
    ∀ s : Server, (s.writes ops).indexes = s.indexes := by
  induction ops with
  | nil => intro s; rfl
  | cons op rest ih =>
    intro s
    simp only [Server.writes, List.foldl_cons] at ih ⊢
    rw [ih, Server.write_indexes]

theorem Server.writes_consistent (ops : List Write) :
    ∀ s : Server, Consistent s → Consistent (s.writes ops) := by
  induction ops with
  | nil => intro s h; exact h
  | cons op rest ih =>
    intro s h
    simp only [Server.writes, List.foldl_cons] at ih ⊢
    exact ih _ (Server.write_consistent op s h)

/-- A write that would leave two documents with the key of a unique index is
rejected with a duplicate-key error and changes nothing. -/
theorem Server.write_rejected (op : Write) (s : Server) (hc : Consistent s) (ix : Index)
    (hix : ix ∈ s.indexes) (hu : ix.unique = true)
    (h : ¬ UniqueOn ix.keys (unchecked op ix.db ix.coll (s.colls ix.db ix.coll))) :
    s.write op = (some Err.duplicateKeyViolation, s) := by
  have hn := hc ix hix hu
  have hmem := Server.mem_uniqueIndexes s ix hix hu
  cases op with
  | insert db coll d =>
    simp only [unchecked] at h
    split_ifs at h with hdc
    · obtain ⟨rfl, rfl⟩ := hdc
      have hd := mem_of_not_nodup_append (keyOf ix.keys) d _ hn h
      have hany : (s.uniqueIndexes ix.db ix.coll).any
          (fun ix1 => keyOf ix1.keys d ∈ (s.colls ix.db ix.coll).map (keyOf ix1.keys)) = true := by
        rw [List.any_eq_true]
        exact ⟨ix, hmem, by simpa using hd⟩
      simp only [Server.write, Server.insert, hany, if_true]
    · exact absurd hn h
  | update db coll i d =>
    simp only [unchecked] at h
    split_ifs at h with hdc
    · obtain ⟨rfl, rfl⟩ := hdc
      obtain ⟨hi, hd⟩ := mem_of_not_nodup_set (keyOf ix.keys) d _ i hn h
      have hany : (s.uniqueIndexes ix.db ix.coll).any
          (fun ix1 => keyOf ix1.keys d ∈
            ((s.colls ix.db ix.coll).eraseIdx i).map (keyOf ix1.keys)) = true := by
        rw [List.any_eq_true]
        exact ⟨ix, hmem, by simpa using hd⟩
      simp only [Server.write, Server.update, hi, hany, if_true]
    · exact absurd hn h


/-! ## The script on the server -/

/-- The server a run leaves is the one left by the last command it issued. -/
theorem run_srv_cases {σ : Type} (api : ServerApi σ) (w : World σ) :
    (mongoInit api w).2.srv = (replyUser api w).2 ∨
    (mongoInit api w).2.srv = (replyTargets api w).2 ∨
    (mongoInit api w).2.srv = (replyUsers api w).2 ∨
    (mongoInit api w).2.srv = (replyGroups api w).2 := by
  cases h0 : (replyUser api w).1 with
  | some e => simp [run_err_user api w e h0]
  | none =>
    cases h1 : (replyTargets api w).1 with
    | some e => simp [run_err_targets api w e h0 h1]
    | none =>
      cases h2 : (replyUsers api w).1 with
      | some e => simp [run_err_users api w e h0 h1 h2]
      | none =>
        cases h3 : (replyGroups api w).1 with
        | some e => simp [run_err_groups api w e h0 h1 h2 h3]
        | none => simp [run_ok api w h0 h1 h2 h3]

theorem replies_consistent (w : World Server) (hc : Consistent w.srv) :
    Consistent (replyUser server w).2 ∧ Consistent (replyTargets server w).2 ∧
    Consistent (replyUsers server w).2 ∧ Consistent (replyGroups server w).2 := by
  have c0 : Consistent (replyUser server w).2 := Server.createUser_consistent _ _ _ hc
  have c1 : Consistent (replyTargets server w).2 := Server.createIndex_consistent _ _ _ _ _ c0
  have c2 : Consistent (replyUsers server w).2 := Server.createIndex_consistent _ _ _ _ _ c1
  have c3 : Consistent (replyGroups server w).2 := Server.createIndex_consistent _ _ _ _ _ c2
  exact ⟨c0, c1, c2, c3⟩

/-- A run keeps every unique index of the server valid. -/
theorem run_consistent (w : World Server) (hc : Consistent w.srv) :
    Consistent (mongoInit server w).2.srv := by
  obtain ⟨c0, c1, c2, c3⟩ := replies_consistent w hc
  rcases run_srv_cases server w with h | h | h | h <;> rw [h] <;> assumption

/-- After a run that succeeded the three indexes of the script exist. -/
theorem run_ok_indexes (w : World Server) (hok : (mongoInit server w).1 = .ok ()) :
    indexOf targetDb "targets" targetsKeys { unique := true } ∈ (mongoInit server w).2.srv.indexes ∧
    indexOf targetDb "users" usersKeys { unique := true } ∈ (mongoInit server w).2.srv.indexes ∧
    indexOf targetDb "group_settings" groupSettingsKeys { unique := true } ∈
      (mongoInit server w).2.srv.indexes := by
  obtain ⟨h0, h1, h2, h3⟩ := (run_ok_iff server w).1 hok
  rw [run_ok server w h0 h1 h2 h3]
  have m1 : indexOf targetDb "targets" targetsKeys { unique := true } ∈
      (replyTargets server w).2.indexes := Server.createIndex_mem _ _ _ _ _ h1
  have m2 : indexOf targetDb "users" usersKeys { unique := true } ∈
      (replyUsers server w).2.indexes := Server.createIndex_mem _ _ _ _ _ h2
  have m3 : indexOf targetDb "group_settings" groupSettingsKeys { unique := true } ∈
      (replyGroups server w).2.indexes := Server.createIndex_mem _ _ _ _ _ h3
  exact ⟨Server.createIndex_mono _ _ _ _ _ _ (Server.createIndex_mono _ _ _ _ _ _ m1),
    Server.createIndex_mono _ _ _ _ _ _ m2, m3⟩

/-- C4: in every state reached from a successful run of the script (on a
server whose unique indexes hold) by any sequence of inserts and updates,
none of targets, users and group_settings holds two documents with equal
values on its key fields ((user_id, date), user_id, group_id); an insert or
update that would produce such a pair is rejected with a duplicate-key error
and leaves the server unchanged. -/
theorem uniqueness_invariant (w : World Server) (hc : Consistent w.srv)
    (hok : (mongoInit server w).1 = .ok ()) (ops : List Write) :
    UniqueOn [("user_id", Dir.asc), ("date", Dir.asc)]
      (((mongoInit server w).2.srv.writes ops).colls "telegram_target_bot" "targets") ∧
    UniqueOn [("user_id", Dir.asc)]
      (((mongoInit server w).2.srv.writes ops).colls "telegram_target_bot" "users") ∧
    UniqueOn [("group_id", Dir.asc)]
      (((mongoInit server w).2.srv.writes ops).colls "telegram_target_bot" "group_settings") ∧
    ∀ op : Write,
      (¬ UniqueOn [("user_id", Dir.asc), ("date", Dir.asc)]
          (unchecked op "telegram_target_bot" "targets"
            (((mongoInit server w).2.srv.writes ops).colls "telegram_target_bot" "targets")) ∨
       ¬ UniqueOn [("user_id", Dir.asc)]
          (unchecked op "telegram_target_bot" "users"
            (((mongoInit server w).2.srv.writes ops).colls "telegram_target_bot" "users")) ∨
       ¬ UniqueOn [("group_id", Dir.asc)]
          (unchecked op "telegram_target_bot" "group_settings"
            (((mongoInit server w).2.srv.writes ops).colls "telegram_target_bot"
              "group_settings"))) →
      ((mongoInit server w).2.srv.writes ops).write op =
        (some Err.duplicateKeyViolation, (mongoInit server w).2.srv.writes ops) := by
  have hcs : Consistent ((mongoInit server w).2.srv.writes ops) :=
    Server.writes_consistent ops _ (run_consistent w hc)
  obtain ⟨m1, m2, m3⟩ := run_ok_indexes w hok
  rw [← Server.writes_indexes ops] at m1 m2 m3
  refine ⟨hcs _ m1 rfl, hcs _ m2 rfl, hcs _ m3 rfl, ?_⟩
  intro op h
  rcases h with h | h | h
  · exact Server.write_rejected op _ hcs _ m1 rfl h
  · exact Server.write_rejected op _ hcs _ m2 rfl h
  · exact Server.write_rejected op _ hcs _ m3 rfl h

theorem consistent_emptyServer : Consistent emptyServer := by
  intro ix hix
  simp [emptyServer] at hix

/-- After the run on the empty server, a second insert of the same target is
rejected and the collection keeps one document per key. -/
theorem uniqueness_invariant_witness :
    UniqueOn [("user_id", Dir.asc), ("date", Dir.asc)]
      (((mongoInit server
          { srv := emptyServer, db := "test", out := [], calls := [], env := [] }).2.srv.writes
        [Write.insert "telegram_target_bot" "targets" sampleTarget,
         Write.insert "telegram_target_bot" "targets" sampleTarget,
         Write.insert "telegram_target_bot" "targets" sampleTargetNextDay,
         Write.update "telegram_target_bot" "targets" 1 sampleTarget]).colls
        "telegram_target_bot" "targets") :=
  (uniqueness_invariant
    { srv := emptyServer, db := "test", out := [], calls := [], env := [] }
    consistent_emptyServer rfl
    [Write.insert "telegram_target_bot" "targets" sampleTarget,
     Write.insert "telegram_target_bot" "targets" sampleTarget,
     Write.insert "telegram_target_bot" "targets" sampleTargetNextDay,
     Write.update "telegram_target_bot" "targets" 1 sampleTarget]).1


/-! ## The script on an empty server -/

/-- The run of the script on the empty server, from any starting database and
under any injected configuration. -/
theorem run_empty (start : String) (env : List (String × String)) :
    run server start env emptyServer = (.ok (),
      { srv :=
          { users := [{ db := start, user := "admin", pwd := "admin123",
                        roles := [{ role := "readWrite", db := "telegram_target_bot" },
                                  { role := "dbAdmin", db := "telegram_target_bot" }] }],
            indexes := [indexOf targetDb "targets" targetsKeys { unique := true },
                        indexOf targetDb "users" usersKeys { unique := true },
                        indexOf targetDb "group_settings" groupSettingsKeys { unique := true }],
            colls := fun _ _ => [] },
        db := targetDb, out := [successMessage], calls := scriptSteps start, env := env }) := by
  rfl

/-- Two documents that differ on a key field have different keys. -/
theorem keyOf_targets_ne (d1 d2 : Doc)
    (h : fieldOf d1 "user_id" ≠ fieldOf d2 "user_id" ∨ fieldOf d1 "date" ≠ fieldOf d2 "date") :
    keyOf [("user_id", Dir.asc), ("date", Dir.asc)] d2 ≠
      keyOf [("user_id", Dir.asc), ("date", Dir.asc)] d1 := by
  intro hk
  simp only [keyOf, List.map_cons, List.map_nil, List.cons.injEq, and_true] at hk
  rcases h with h | h
  · exact h hk.1.symm
  · exact h hk.2.symm

/-- An insert whose key is new to every unique index of the collection is
accepted and appends the document. -/
theorem Server.insert_ok (db coll : String) (d : Doc) (s : Server)
    (h : ∀ ix ∈ s.uniqueIndexes db coll,
      keyOf ix.keys d ∉ (s.colls db coll).map (keyOf ix.keys)) :
    s.insert db coll d = (none, s.setColl db coll (s.colls db coll ++ [d])) := by
  unfold Server.insert
  rw [if_neg]
  intro hany
  rw [List.any_eq_true] at hany
  obtain ⟨ix, hix, hd⟩ := hany
  exact h ix hix (by simpa using hd)

theorem Server.setColl_colls (s : Server) (db coll : String) (docs : List Doc) :
    (s.setColl db coll docs).colls db coll = docs := by
  simp [Server.setColl]

theorem Server.setColl_uniqueIndexes (s : Server) (db coll : String) (docs : List Doc)
    (db1 coll1 : String) :
    (s.setColl db coll docs).uniqueIndexes db1 coll1 = s.uniqueIndexes db1 coll1 := rfl

/-- C5: after a successful run of the script on an empty database, any two
documents that differ in at least one of user_id and date can both be
inserted into targets: equality on user_id alone or on date alone causes no
rejection. -/
theorem compound_index_exact_pair (start : String) (env : List (String × String))
    (d1 d2 : Doc)
    (h : fieldOf d1 "user_id" ≠ fieldOf d2 "user_id" ∨ fieldOf d1 "date" ≠ fieldOf d2 "date") :
    (run server start env emptyServer).1 = .ok () ∧
    ((run server start env emptyServer).2.srv.insert "telegram_target_bot" "targets" d1).1
      = none ∧
    (((run server start env emptyServer).2.srv.insert "telegram_target_bot" "targets" d1).2.insert
      "telegram_target_bot" "targets" d2).1 = none ∧
    (((run server start env emptyServer).2.srv.insert "telegram_target_bot" "targets" d1).2.insert
      "telegram_target_bot" "targets" d2).2.colls "telegram_target_bot" "targets" = [d1, d2] := by
  have hk := keyOf_targets_ne d1 d2 h
  have hrun := run_empty start env
  have hok : (run server start env emptyServer).1 = .ok () := by rw [hrun]
  have hu : (run server start env emptyServer).2.srv.uniqueIndexes "telegram_target_bot" "targets"
      = [indexOf targetDb "targets" targetsKeys { unique := true }] := by
    rw [hrun]; rfl
  have hc : (run server start env emptyServer).2.srv.colls "telegram_target_bot" "targets"
      = [] := by
    rw [hrun]
  refine ⟨hok, ?_⟩
  generalize (run server start env emptyServer).2.srv = s at hu hc ⊢
  have h1 : s.insert "telegram_target_bot" "targets" d1
      = (none, s.setColl "telegram_target_bot" "targets" [d1]) := by
    rw [Server.insert_ok, hc]
    · rfl
    · intro ix _; simp [hc]
  have h2 : (s.setColl "telegram_target_bot" "targets" [d1]).insert
      "telegram_target_bot" "targets" d2
      = (none, (s.setColl "telegram_target_bot" "targets" [d1]).setColl
          "telegram_target_bot" "targets" [d1, d2]) := by
    rw [Server.insert_ok, Server.setColl_colls]
    · rfl
    · intro ix hix
      rw [Server.setColl_uniqueIndexes, hu, List.mem_singleton] at hix
      subst hix
      rw [Server.setColl_colls]
      simpa [indexOf, targetsKeys] using hk
  refine ⟨?_, ?_, ?_⟩
  · simp only [h1]
  · simp only [h1, h2]
  · simp only [h1, h2, Server.setColl_colls]

/-- The two sample targets share their user and differ in their date: both
are inserted. -/
theorem compound_index_exact_pair_witness :
    (fieldOf sampleTarget "user_id" = fieldOf sampleTargetNextDay "user_id" ∧
      fieldOf sampleTarget "date" ≠ fieldOf sampleTargetNextDay "date") ∧
    (((run server "test" [] emptyServer).2.srv.insert "telegram_target_bot" "targets"
        sampleTarget).2.insert
      "telegram_target_bot" "targets" sampleTargetNextDay).1 = none :=
  ⟨by decide,
   (compound_index_exact_pair "test" [] sampleTarget sampleTargetNextDay
     (Or.inr (by decide))).2.2.1⟩


/-! ## Running the script again -/

/-- An index command for an index that exists with identical specification is
a no-op. -/
theorem Server.createIndex_noop (db coll : String) (keys : KeySpec) (opts : IndexOptions)
    (s : Server) (h : indexOf db coll keys opts ∈ s.indexes) :
    s.createIndex db coll keys opts = (none, s) := by
  unfold Server.createIndex
  rw [if_pos h]

/-- C7: in every state of database "telegram_target_bot" in which the three
indexes of the script already exist with specifications identical to the ones
it declares, executing the three createIndex statements of the script raises
no error and leaves the indexes, and the whole server, unchanged. -/
theorem createIndexes_idempotent (w : World Server)
    (h1 : { db := "telegram_target_bot", coll := "targets", name := "user_id_1_date_1",
            keys := [("user_id", Dir.asc), ("date", Dir.asc)], unique := true }
          ∈ w.srv.indexes)
    (h2 : { db := "telegram_target_bot", coll := "users", name := "user_id_1",
            keys := [("user_id", Dir.asc)], unique := true } ∈ w.srv.indexes)
    (h3 : { db := "telegram_target_bot", coll := "group_settings", name := "group_id_1",
            keys := [("group_id", Dir.asc)], unique := true } ∈ w.srv.indexes) :
    (createIndexes server { w with db := "telegram_target_bot" }).1 = .ok () ∧
    (createIndexes server { w with db := "telegram_target_bot" }).2.srv.indexes
      = w.srv.indexes ∧
    (createIndexes server { w with db := "telegram_target_bot" }).2.srv = w.srv ∧
    newCalls w (createIndexes server { w with db := "telegram_target_bot" }).2 =
      [Step.createIndex "telegram_target_bot" "targets"
         [("user_id", Dir.asc), ("date", Dir.asc)] { unique := true },
       Step.createIndex "telegram_target_bot" "users" [("user_id", Dir.asc)] { unique := true },
       Step.createIndex "telegram_target_bot" "group_settings" [("group_id", Dir.asc)]
         { unique := true }] := by
  have e1 : Server.createIndex "telegram_target_bot" "targets"
      [("user_id", Dir.asc), ("date", Dir.asc)] { unique := true } w.srv = (none, w.srv) :=
    Server.createIndex_noop _ _ _ _ _ h1
  have e2 : Server.createIndex "telegram_target_bot" "users"
      [("user_id", Dir.asc)] { unique := true } w.srv = (none, w.srv) :=
    Server.createIndex_noop _ _ _ _ _ h2
  have e3 : Server.createIndex "telegram_target_bot" "group_settings"
      [("group_id", Dir.asc)] { unique := true } w.srv = (none, w.srv) :=
    Server.createIndex_noop _ _ _ _ _ h3
  simp [createIndexes, createIndex, bind, Shell.bind, reply, server, e1, e2, e3, newCalls]

/-- On the server left by a first run, the three createIndex statements run
again without error and change nothing. -/
theorem createIndexes_idempotent_witness :
    (createIndexes server
      { srv := bootstrapped, db := "telegram_target_bot", out := [], calls := [], env := [] }).1
      = .ok () ∧
    (createIndexes server
      { srv := bootstrapped, db := "telegram_target_bot", out := [], calls := [],
        env := [] }).2.srv.indexes = bootstrapped.indexes :=
  ⟨(createIndexes_idempotent
      { srv := bootstrapped, db := "test", out := [], calls := [], env := [] }
      (by decide) (by decide) (by decide)).1,
   (createIndexes_idempotent
      { srv := bootstrapped, db := "test", out := [], calls := [], env := [] }
      (by decide) (by decide) (by decide)).2.1⟩

/-- The second run of the script on the server a first run left. -/
theorem rerun_empty (start : String) (env env1 : List (String × String)) :
    run server start env1 (run server start env emptyServer).2.srv =
      (.error Err.alreadyExists,
        { srv := (run server start env emptyServer).2.srv, db := start, out := [],
          calls := [Step.createUser start adminSpec], env := env1 }) := by
  have h0 : replyUser server
        { srv := (run server start env emptyServer).2.srv, db := start, out := [], calls := [],
          env := env1 } =
      (some Err.alreadyExists, (run server start env emptyServer).2.srv) := by
    rw [run_empty]
    simp [replyUser, server, Server.createUser, adminSpec]
  unfold run at *
  rw [run_err_user server _ Err.alreadyExists (by rw [h0]), h0]
  rfl

/-- C3 as amended: on a fresh (empty) database, running the script twice in
succession from the same starting database leaves the same server end-state
(one principal, three indexes) as running it once, but the second run is not
free of error: it ends at principal creation with AlreadyExists, executes no
later statement and prints no success message. -/
theorem rerun_same_state_but_fails (start : String) (env env1 : List (String × String)) :
    (run server start env emptyServer).1 = .ok () ∧
    (run server start env1 (run server start env emptyServer).2.srv).1
      = .error Err.alreadyExists ∧
    (run server start env1 (run server start env emptyServer).2.srv).2.srv
      = (run server start env emptyServer).2.srv ∧
    (run server start env emptyServer).2.srv.users.length = 1 ∧
    (run server start env emptyServer).2.srv.indexes.length = 3 ∧
    (run server start env1 (run server start env emptyServer).2.srv).2.calls
      = [Step.createUser start adminSpec] ∧
    (run server start env1 (run server start env emptyServer).2.srv).2.out = [] := by
  rw [rerun_empty start env env1]
  rw [run_empty start env]
  exact ⟨rfl, rfl, rfl, rfl, rfl, rfl, rfl⟩

/-- C3 fails on the script: the second of two runs on a fresh database ends
with the fatal error AlreadyExists. -/
theorem rerun_counterexample :
    (run server "test" [] emptyServer).1 = .ok () ∧
    (run server "test" [] (run server "test" [] emptyServer).2.srv).1
      = .error Err.alreadyExists ∧
    (run server "test" [] (run server "test" [] emptyServer).2.srv).1 ≠ .ok () :=
  ⟨rfl, rfl, by rw [show (run server "test" [] (run server "test" [] emptyServer).2.srv).1
      = .error Err.alreadyExists from rfl]; exact fun h => by cases h⟩


/-! ## Collections that already hold duplicates -/

/-- A unique index command on a collection that holds duplicates, where the
index does not exist yet, fails and changes nothing; it fails with
`DuplicateKeyViolation` when no index of the collection has the name. -/
theorem Server.createIndex_blocked (db coll : String) (keys : KeySpec) (s : Server)
    (hni : indexOf db coll keys { unique := true } ∉ s.indexes)
    (hdup : ¬ UniqueOn keys (s.colls db coll)) :
    (s.createIndex db coll keys { unique := true }).2 = s ∧
    (s.createIndex db coll keys { unique := true }).1 ≠ none ∧
    ((∀ j ∈ s.indexes, ¬ (j.db = db ∧ j.coll = coll ∧ j.name = indexName keys)) →
      (s.createIndex db coll keys { unique := true }).1 = some Err.duplicateKeyViolation) := by
  unfold Server.createIndex
  rw [if_neg hni]
  split_ifs with h2 h3
  · refine ⟨rfl, by simp, fun hq => ?_⟩
    rw [List.any_eq_true] at h2
    obtain ⟨j, hj, hj1⟩ := h2
    exact absurd (by simpa using hj1) (hq j hj)
  · exact ⟨rfl, by simp, fun _ => rfl⟩
  · exact absurd ⟨rfl, hdup⟩ h3

/-- An index command on another collection neither creates the index of this
one nor an index of this one under any name. -/
theorem Server.createIndex_other (db coll c1 : String) (keys k1 : KeySpec) (o o1 : IndexOptions)
    (n : String) (s : Server) (hne : c1 ≠ coll) :
    (indexOf db coll keys o ∉ s.indexes →
      indexOf db coll keys o ∉ (s.createIndex db c1 k1 o1).2.indexes) ∧
    ((∀ j ∈ s.indexes, ¬ (j.db = db ∧ j.coll = coll ∧ j.name = n)) →
      ∀ j ∈ (s.createIndex db c1 k1 o1).2.indexes, ¬ (j.db = db ∧ j.coll = coll ∧ j.name = n)) := by
  constructor
  · intro hni hmem
    rcases Server.createIndex_indexes db c1 k1 o1 s _ hmem with h | ⟨h, -⟩
    · exact hni h
    · exact hne (congrArg Index.coll h).symm
  · intro hq j hj
    rcases Server.createIndex_indexes db c1 k1 o1 s _ hj with h | ⟨h, -⟩
    · exact hq j h
    · subst h
      exact fun hj1 => hne hj1.2.1

/-- One createIndex statement of the script, on a server where the collection
`coll` holds duplicates on `keys` and its index does not exist: the
duplicates and the absence of the index remain, and the statement for `coll`
itself fails. -/
theorem createIndex_step_blocked (coll c1 : String) (keys k1 : KeySpec) (s : Server)
    (hck : (coll, keys) ∈ [("targets", targetsKeys), ("users", usersKeys),
      ("group_settings", groupSettingsKeys)])
    (hc1 : (c1, k1) ∈ [("targets", targetsKeys), ("users", usersKeys),
      ("group_settings", groupSettingsKeys)])
    (hni : indexOf targetDb coll keys { unique := true } ∉ s.indexes)
    (hdup : ¬ UniqueOn keys (s.colls targetDb coll)) :
    (indexOf targetDb coll keys { unique := true } ∉
        (s.createIndex targetDb c1 k1 { unique := true }).2.indexes ∧
      ¬ UniqueOn keys ((s.createIndex targetDb c1 k1 { unique := true }).2.colls targetDb coll)) ∧
    ((∀ j ∈ s.indexes, ¬ (j.db = targetDb ∧ j.coll = coll ∧ j.name = indexName keys)) →
      ∀ j ∈ (s.createIndex targetDb c1 k1 { unique := true }).2.indexes,
        ¬ (j.db = targetDb ∧ j.coll = coll ∧ j.name = indexName keys)) ∧
    (c1 = coll →
      (s.createIndex targetDb c1 k1 { unique := true }).1 ≠ none ∧
      ((∀ j ∈ s.indexes, ¬ (j.db = targetDb ∧ j.coll = coll ∧ j.name = indexName keys)) →
        (s.createIndex targetDb c1 k1 { unique := true }).1 = some Err.duplicateKeyViolation)) := by
  by_cases hcc : c1 = coll
  · have hkk : k1 = keys := by
      subst hcc
      simp only [List.mem_cons, List.mem_singleton, List.not_mem_nil, or_false,
        Prod.mk.injEq] at hck hc1
      rcases hck with ⟨h1, h2⟩ | ⟨h1, h2⟩ | ⟨h1, h2⟩ <;>
        rcases hc1 with ⟨h3, h4⟩ | ⟨h3, h4⟩ | ⟨h3, h4⟩ <;>
        first
          | (rw [h1] at h3; exact absurd h3 (by decide))
          | (rw [h2, h4])
    subst hcc; subst hkk
    obtain ⟨b1, b2, b3⟩ := Server.createIndex_blocked targetDb c1 k1 s hni hdup
    rw [b1]
    exact ⟨⟨hni, hdup⟩, fun hq => hq, fun _ => ⟨b2, b3⟩⟩
  · obtain ⟨o1, o2⟩ := Server.createIndex_other targetDb coll c1 keys k1 { unique := true }
      { unique := true } (indexName keys) s hcc
    rw [Server.createIndex_colls]
    exact ⟨⟨o1 hni, hdup⟩, o2, fun h => absurd h hcc⟩


/-- C8 as amended: for every initial state (whose unique indexes hold) in
which one of targets, users and group_settings already holds two documents
with equal values on the key fields the script declares unique for it, the run
does not report success, prints no success message and the unique index on
that collection is not created; when the run reaches that collection's
createIndex statement (every earlier statement succeeded) and no index of the
collection has the name of the new one, the run fails there with
DuplicateKeyViolation. -/
theorem duplicates_block_index (w : World Server) (hc : Consistent w.srv)
    (coll : String) (keys : KeySpec)
    (hck : (coll, keys) ∈ [("targets", targetsKeys), ("users", usersKeys),
      ("group_settings", groupSettingsKeys)])
    (hdup : ¬ UniqueOn keys (w.srv.colls "telegram_target_bot" coll)) :
    (mongoInit server w).1 ≠ .ok () ∧
    newOut w (mongoInit server w).2 = [] ∧
    indexOf "telegram_target_bot" coll keys { unique := true } ∉
      (mongoInit server w).2.srv.indexes ∧
    (Step.createIndex "telegram_target_bot" coll keys { unique := true } ∈
        newCalls w (mongoInit server w).2 →
      (∀ j ∈ w.srv.indexes,
        ¬ (j.db = "telegram_target_bot" ∧ j.coll = coll ∧ j.name = indexName keys)) →
      (mongoInit server w).1 = .error Err.duplicateKeyViolation ∧
      (newCalls w (mongoInit server w).2).getLast? =
        some (Step.createIndex "telegram_target_bot" coll keys { unique := true })) := by
  have hni : indexOf targetDb coll keys { unique := true } ∉ w.srv.indexes :=
    fun hmem => hdup (hc _ hmem rfl)
  have hni0 : indexOf targetDb coll keys { unique := true } ∉ (replyUser server w).2.indexes := by
    unfold replyUser server
    rw [Server.createUser_indexes]; exact hni
  have hd0 : ¬ UniqueOn keys ((replyUser server w).2.colls targetDb coll) := by
    unfold replyUser server
    rw [Server.createUser_colls]; exact hdup
  have hq0 : (∀ j ∈ w.srv.indexes,
        ¬ (j.db = targetDb ∧ j.coll = coll ∧ j.name = indexName keys)) →
      ∀ j ∈ (replyUser server w).2.indexes,
        ¬ (j.db = targetDb ∧ j.coll = coll ∧ j.name = indexName keys) := by
    unfold replyUser server
    rw [Server.createUser_indexes]; exact fun h => h
  obtain ⟨⟨hni1, hd1⟩, hq1, hf1⟩ := createIndex_step_blocked coll "targets" keys targetsKeys
    (replyUser server w).2 hck (by simp) hni0 hd0
  obtain ⟨⟨hni2, hd2⟩, hq2, hf2⟩ := createIndex_step_blocked coll "users" keys usersKeys
    (replyTargets server w).2 hck (by simp) hni1 hd1
  obtain ⟨⟨hni3, -⟩, -, hf3⟩ := createIndex_step_blocked coll "group_settings" keys
    groupSettingsKeys (replyUsers server w).2 hck (by simp) hni2 hd2
  have hfail : (mongoInit server w).1 ≠ .ok () := by
    intro hok
    obtain ⟨-, h1, h2, h3⟩ := (run_ok_iff server w).1 hok
    simp only [List.mem_cons, List.mem_singleton, List.not_mem_nil, or_false,
      Prod.mk.injEq] at hck
    rcases hck with ⟨rfl, -⟩ | ⟨rfl, -⟩ | ⟨rfl, -⟩
    · exact (hf1 rfl).1 h1
    · exact (hf2 rfl).1 h2
    · exact (hf3 rfl).1 h3
  refine ⟨hfail, ?_, ?_, ?_⟩
  · obtain ⟨k, -, -, -, h | h⟩ := run_shape server w
    · exact absurd h.1 hfail
    · simp [newOut, h.2.2]
  · rcases run_srv_cases server w with h | h | h | h <;> rw [h] <;> assumption
  · intro hmem hq
    have q0 := hq0 hq
    have q1 := hq1 q0
    have q2 := hq2 q1
    cases h0 : (replyUser server w).1 with
    | some e =>
      rw [run_err_user server w e h0] at hmem
      simp [newCalls, scriptSteps] at hmem
    | none =>
      cases h1 : (replyTargets server w).1 with
      | some e =>
        rw [run_err_targets server w e h0 h1] at hmem ⊢
        simp only [newCalls, drop_length_append] at hmem ⊢
        simp [scriptSteps, targetDb] at hmem
        obtain ⟨rfl, rfl⟩ := hmem
        have he : (replyTargets server w).1 = some Err.duplicateKeyViolation := (hf1 rfl).2 q0
        rw [h1] at he
        cases he
        exact ⟨rfl, rfl⟩
      | none =>
        cases h2 : (replyUsers server w).1 with
        | some e =>
          rw [run_err_users server w e h0 h1 h2] at hmem ⊢
          simp only [newCalls, drop_length_append] at hmem ⊢
          simp [scriptSteps, targetDb] at hmem
          rcases hmem with ⟨rfl, rfl⟩ | ⟨rfl, rfl⟩
          · exact absurd h1 (hf1 rfl).1
          · have he : (replyUsers server w).1 = some Err.duplicateKeyViolation := (hf2 rfl).2 q1
            rw [h2] at he
            cases he
            exact ⟨rfl, rfl⟩
        | none =>
          cases h3 : (replyGroups server w).1 with
          | some e =>
            rw [run_err_groups server w e h0 h1 h2 h3] at hmem ⊢
            simp only [newCalls, drop_length_append] at hmem ⊢
            simp [scriptSteps, targetDb] at hmem
            rcases hmem with ⟨rfl, rfl⟩ | ⟨rfl, rfl⟩ | ⟨rfl, rfl⟩
            · exact absurd h1 (hf1 rfl).1
            · exact absurd h2 (hf2 rfl).1
            · have he : (replyGroups server w).1 = some Err.duplicateKeyViolation := (hf3 rfl).2 q2
              rw [h3] at he
              cases he
              exact ⟨rfl, rfl⟩
          | none => exact absurd ((run_ok_iff server w).2 ⟨h0, h1, h2, h3⟩) hfail

/-- On the server whose targets collection holds a duplicate, the run fails at
the createIndex statement of targets with DuplicateKeyViolation and creates no
index. -/
theorem duplicates_block_index_witness :
    ¬ UniqueOn targetsKeys (duplicateServer.colls "telegram_target_bot" "targets") ∧
    (mongoInit server
      { srv := duplicateServer, db := "test", out := [], calls := [], env := [] }).1 ≠ .ok () ∧
    indexOf "telegram_target_bot" "targets" targetsKeys { unique := true } ∉
      (mongoInit server
        { srv := duplicateServer, db := "test", out := [], calls := [], env := [] }).2.srv.indexes ∧
    (mongoInit server
      { srv := duplicateServer, db := "test", out := [], calls := [], env := [] }).1
      = .error Err.duplicateKeyViolation :=
  ⟨by decide,
   (duplicates_block_index
      { srv := duplicateServer, db := "test", out := [], calls := [], env := [] }
      (fun ix hix => by simp [duplicateServer, emptyServer, Server.setColl] at hix)
      "targets" targetsKeys (by simp) (by decide)).1,
   (duplicates_block_index
      { srv := duplicateServer, db := "test", out := [], calls := [], env := [] }
      (fun ix hix => by simp [duplicateServer, emptyServer, Server.setColl] at hix)
      "targets" targetsKeys (by simp) (by decide)).2.2.1,
   ((duplicates_block_index
      { srv := duplicateServer, db := "test", out := [], calls := [], env := [] }
      (fun ix hix => by simp [duplicateServer, emptyServer, Server.setColl] at hix)
      "targets" targetsKeys (by simp) (by decide)).2.2.2
      (by decide) (fun j hj => by simp [duplicateServer, emptyServer, Server.setColl] at hj)).1⟩

/-- C8 fails on the script: on the server left by a run that failed on the
duplicates of targets, the duplicates are still there and the next run fails
at principal creation with AlreadyExists, not with DuplicateKeyViolation at
the createIndex statement of targets, which is not executed. -/
theorem duplicates_rerun_counterexample :
    ¬ UniqueOn targetsKeys (duplicateServerRerun.colls "telegram_target_bot" "targets") ∧
    (run server "test" [] duplicateServerRerun).1 = .error Err.alreadyExists ∧
    (run server "test" [] duplicateServerRerun).1 ≠ .error Err.duplicateKeyViolation ∧
    (run server "test" [] duplicateServerRerun).2.calls = [Step.createUser "test" adminSpec] := by
  refine ⟨by decide, rfl, ?_, rfl⟩
  rw [show (run server "test" [] duplicateServerRerun).1 = .error Err.alreadyExists from rfl]
  exact fun h => by cases h


/-- On the server whose targets collection holds a duplicate, the index
command of line 15 fails: the run does not succeed and prints nothing. -/
theorem success_message_only_on_completion_witness :
    (mongoInit server
      { srv := duplicateServer, db := "test", out := [], calls := [], env := [] }).1 ≠ .ok () ∧
    newOut { srv := duplicateServer, db := "test", out := [], calls := [], env := [] }
      (mongoInit server
        { srv := duplicateServer, db := "test", out := [], calls := [], env := [] }).2 = [] :=
  (success_message_only_on_completion server
    { srv := duplicateServer, db := "test", out := [], calls := [], env := [] }).2.2.1
    (Or.inr (Or.inl (by
      rw [show (replyTargets server
        { srv := duplicateServer, db := "test", out := [], calls := [], env := [] }).1
        = some Err.duplicateKeyViolation from rfl]
      exact fun h => by cases h)))

end MongoInit
